import Mathlib

/-!
# JacksAddinPlaygroundCpp: the add-in entry points over a modelled host

Embedding of `src/cpp/JacksAddinPlaygroundCpp.cpp`: the two exported entry
points `run` and `stop`, and the Windows loader hook `DllMain`.

The host object model (`Application`, `UserInterface`, `CommandDefinitions`,
`CommandDefinition`, `CommandCreatedEvent`) is not part of the source file.
What each host call answers is a parameter (`Host`); what each host call
changes is recorded in `State`.  A `Ptr<T>` is `Option` of a handle, the null
pointer being `none`.

Lines 26 to 33 of the source carry listing numbers (`12` .. `19`) in front of
the statements; the statements are embedded as written after the number.
`sampleCmdDef` and `_cmdCreated` are used by the source without a declaration
in the file: the first is embedded as one more file-scope `Ptr`, the second as
the designated handler object `HandlerRef._cmdCreated`.
-/

namespace JacksAddinPlayground

/-! ## Handles of host objects -/

/-- Handle of the host `Application` object. -/
structure AppRef where
  id : Nat
  deriving DecidableEq, Repr

/-- Handle of the host `UserInterface` object. -/
structure UIRef where
  id : Nat
  deriving DecidableEq, Repr

/-- Handle of the host `CommandDefinitions` collection. -/
structure DefsRef where
  id : Nat
  deriving DecidableEq, Repr

/-- Handle of one host `CommandDefinition`. -/
structure DefRef where
  id : Nat
  deriving DecidableEq, Repr

/-- Handle of a host `CommandCreatedEvent`. -/
structure EventRef where
  id : Nat
  deriving DecidableEq, Repr

/-- Address of an event handler object: `&_cmdCreated` of this add-in, or a
handler that belongs to some other client of the host. -/
inductive HandlerRef where
  | _cmdCreated
  | foreign (n : Nat)
  deriving DecidableEq, Repr

/-- Arguments of `CommandDefinitions::addButtonDefinition`. -/
structure ButtonDefinition where
  id : String
  name : String
  tooltip : String
  resourceFolder : String
  deriving DecidableEq, Repr

/-- One entry of the command-definition registry: the collection it was added
to, the arguments it was added with, and the handle the host gave it. -/
structure Registration where
  defs : DefsRef
  button : ButtonDefinition
  handle : DefRef
  deriving DecidableEq, Repr

/-- A message box shown to the user: the UI manager it was shown on and its text. -/
structure MessageBox where
  ui : UIRef
  text : String
  deriving DecidableEq, Repr

/-- One event subscription: the event and the handler added to it. -/
structure Subscription where
  event : EventRef
  handler : HandlerRef
  deriving DecidableEq, Repr

/-! ## Host answers and program state -/

/-- What the host answers to the calls `run` makes.  Every answer may be null.
`addButtonDefinition` sees the registry as it is at the call, so a host that
refuses an id already registered is one of the hosts covered. -/
structure Host where
  /-- Answer of `Application::get()`. -/
  get : Option AppRef
  /-- Answer of `app->userInterface()`. -/
  userInterface : AppRef → Option UIRef
  /-- Answer of `ui->commandDefinitions()`. -/
  commandDefinitions : UIRef → Option DefsRef
  /-- Answer of `cmdDefs->addButtonDefinition(id, name, tooltip, resourceFolder)`,
  given the registry at the time of the call. -/
  addButtonDefinition : List Registration → DefsRef → ButtonDefinition → Option DefRef
  /-- Answer of `sampleCmdDef->commandCreated()`. -/
  commandCreated : DefRef → Option EventRef

/-- File-scope variables of the add-in (`app`, `ui`, `sampleCmdDef`) together
with the host-side effects of the calls made so far. -/
structure State where
  /-- The variable `Ptr<Application> app;` of source line 10. -/
  app : Option AppRef
  /-- The variable `Ptr<UserInterface> ui;` of source line 11. -/
  ui : Option UIRef
  /-- The variable `sampleCmdDef` assigned by `run`. -/
  sampleCmdDef : Option DefRef
  /-- Message boxes shown so far, oldest first. -/
  shown : List MessageBox
  /-- Command definitions registered so far, oldest first. -/
  registry : List Registration
  /-- Event handlers subscribed so far, oldest first. -/
  subscriptions : List Subscription
  deriving DecidableEq, Repr

/-- How a call of an entry point ends: it returns a `bool`, or it applies
`operator->` to a null `Ptr` and does not return to its caller normally. -/
inductive Outcome where
  | returned (value : Bool)
  | nullDeref
  deriving DecidableEq, Repr

/-! ## Host calls with an effect -/

/-- The conversion `adsk::to_string(context)`: the context as a `std::string`. -/
def to_string (context : String) : String := context

/-- Effect of `ui->messageBox(text)` on a non-null `ui`: the box is shown.  The
dialog result is discarded by every caller in the source. -/
def messageBox (ui : UIRef) (text : String) (s : State) : State :=
  { s with shown := s.shown ++ [⟨ui, text⟩] }

/-- Effect and result of `cmdDefs->addButtonDefinition(...)` on a non-null
`cmdDefs`: when the host answers with a definition it is in the registry from
then on; when the host answers null the registry is as before. -/
def addButtonDefinition (h : Host) (cmdDefs : DefsRef) (b : ButtonDefinition) (s : State) :
    Option DefRef × State :=
  match h.addButtonDefinition s.registry cmdDefs b with
  | some d => (some d, { s with registry := s.registry ++ [⟨cmdDefs, b, d⟩] })
  | none => (none, s)

/-- Effect of `event->add(handler)` on a non-null event: the handler is
subscribed.  The `bool` the call returns is discarded by the source. -/
def add (event : EventRef) (handler : HandlerRef) (s : State) : State :=
  { s with subscriptions := s.subscriptions ++ [⟨event, handler⟩] }

/-! ## The entry points -/

/-- The button definition `run` asks the host to create (source lines 27-29). -/
def sampleButton : ButtonDefinition :=
  ⟨"sampleCmdID", "Sample", "Sample tooltip", "./Resources/icon32"⟩

/-- Entry point `bool run(const char* context)`, source lines 13-37. -/
def run (h : Host) (context : String) (s : State) : Outcome × State :=
  -- app = Application::get();
  let s := { s with app := h.get }
  match s.app with
  | none => (Outcome.returned false, s)            -- if (!app) return false;
  | some a =>
    -- ui = app->userInterface();
    let s := { s with ui := h.userInterface a }
    match s.ui with
    | none => (Outcome.returned false, s)          -- if (!ui) return false;
    | some u =>
      -- ui->messageBox("Context: " + adsk::to_string(context) + " !");
      let s := messageBox u ("Context: " ++ to_string context ++ " !") s
      -- Ptr<CommandDefinitions> cmdDefs = ui->commandDefinitions();
      match h.commandDefinitions u with
      | none => (Outcome.nullDeref, s)             -- cmdDefs-> on a null Ptr
      | some cmdDefs =>
        -- sampleCmdDef = cmdDefs->addButtonDefinition("sampleCmdID", ...);
        let r := addButtonDefinition h cmdDefs sampleButton s
        let s := { r.2 with sampleCmdDef := r.1 }
        match s.sampleCmdDef with
        | none => (Outcome.nullDeref, s)           -- sampleCmdDef-> on a null Ptr
        | some d =>
          -- Ptr<CommandCreatedEvent> commandCreatedEvent = sampleCmdDef->commandCreated();
          match h.commandCreated d with
          | none => (Outcome.nullDeref, s)         -- commandCreatedEvent-> on a null Ptr
          | some commandCreatedEvent =>
            -- commandCreatedEvent->add(&_cmdCreated);
            let s := add commandCreatedEvent HandlerRef._cmdCreated s
            (Outcome.returned true, s)             -- return true;

/-- Entry point `bool stop(const char* context)`, source lines 39-48.
The only dereference is guarded by `if (ui)`, so the call always returns. -/
def stop (_context : String) (s : State) : Bool × State :=
  let s :=
    match s.ui with
    | some u =>
      -- ui->messageBox("Stop C++ add-in"); ui = nullptr;
      { messageBox u "Stop C++ add-in" s with ui := none }
    | none => s
  (true, s)

/-! ## The loader hook (`#ifdef XI_WIN`) -/

/-- The constant `TRUE` of `<windows.h>`. -/
def TRUE : Int := 1

/-- The constant `DLL_PROCESS_ATTACH` of `<windows.h>`. -/
def DLL_PROCESS_ATTACH : Nat := 1
/-- The constant `DLL_THREAD_ATTACH` of `<windows.h>`. -/
def DLL_THREAD_ATTACH : Nat := 2
/-- The constant `DLL_THREAD_DETACH` of `<windows.h>`. -/
def DLL_THREAD_DETACH : Nat := 3
/-- The constant `DLL_PROCESS_DETACH` of `<windows.h>`. -/
def DLL_PROCESS_DETACH : Nat := 0

/-- Loader hook `BOOL APIENTRY DllMain(HMODULE hmodule, DWORD reason, LPVOID reserved)`,
source lines 54-65.  `reason` is a `DWORD`, read modulo `2^32`. -/
def DllMain (_hmodule : Nat) (reason : Nat) (_reserved : Nat) (s : State) : Int × State :=
  let reason := reason % 2 ^ 32
  let s :=
    if reason = DLL_PROCESS_ATTACH then s          -- case ...: break;
    else if reason = DLL_THREAD_ATTACH then s
    else if reason = DLL_THREAD_DETACH then s
    else if reason = DLL_PROCESS_DETACH then s
    else s                                         -- no default label
  (TRUE, s)

/-! ## Concrete hosts and states used to evaluate the entry points -/

/-- A state before the first load: nothing held, nothing shown or registered. -/
def idle : State := ⟨none, none, none, [], [], []⟩

/-- A state in which both references are held and a definition is registered. -/
def loaded : State :=
  ⟨some ⟨1⟩, some ⟨2⟩, some ⟨4⟩, [⟨⟨2⟩, "Context: load !"⟩],
   [⟨⟨3⟩, sampleButton, ⟨4⟩⟩], [⟨⟨5⟩, HandlerRef._cmdCreated⟩]⟩

/-- A host that answers every call, and refuses a button definition whose id
is already in the registry (it answers null then). -/
def liveHost : Host where
  get := some ⟨1⟩
  userInterface := fun _ => some ⟨2⟩
  commandDefinitions := fun _ => some ⟨3⟩
  addButtonDefinition := fun reg _ b =>
    if reg.any (fun r => r.button.id == b.id) then none else some ⟨4 + reg.length⟩
  commandCreated := fun _ => some ⟨5⟩

/-- A host whose application singleton is unavailable. -/
def noAppHost : Host := { liveHost with get := none }

/-- A host whose application is available but whose UI manager is not. -/
def noUIHost : Host := { liveHost with userInterface := fun _ => none }

/-! ## What `run` does, path by path -/

/-- Path 1 of `run`: the application singleton is null. -/
theorem run_of_no_app (h : Host) (context : String) (s : State) (hget : h.get = none) :
    run h context s = (Outcome.returned false, { s with app := none }) := by
  simp [run, hget]

/-- Path 2 of `run`: the application is there, its UI manager is null. -/
theorem run_of_no_ui (h : Host) (context : String) (s : State) (a : AppRef)
    (hget : h.get = some a) (hui : h.userInterface a = none) :
    run h context s = (Outcome.returned false, { s with app := some a, ui := none }) := by
  simp [run, hget, hui]

/-- Path 3 of `run`: `commandDefinitions()` answers null, after the message box. -/
theorem run_of_no_defs (h : Host) (context : String) (s : State) (a : AppRef) (u : UIRef)
    (hget : h.get = some a) (hui : h.userInterface a = some u)
    (hdefs : h.commandDefinitions u = none) :
    run h context s =
      (Outcome.nullDeref,
        { s with app := some a, ui := some u,
                 shown := s.shown ++ [⟨u, "Context: " ++ context ++ " !"⟩] }) := by
  simp [run, hget, hui, hdefs, messageBox, to_string]

/-- Path 4 of `run`: `addButtonDefinition(...)` answers null. -/
theorem run_of_no_definition (h : Host) (context : String) (s : State) (a : AppRef) (u : UIRef)
    (cmdDefs : DefsRef) (hget : h.get = some a) (hui : h.userInterface a = some u)
    (hdefs : h.commandDefinitions u = some cmdDefs)
    (hadd : h.addButtonDefinition s.registry cmdDefs sampleButton = none) :
    run h context s =
      (Outcome.nullDeref,
        { s with app := some a, ui := some u, sampleCmdDef := none,
                 shown := s.shown ++ [⟨u, "Context: " ++ context ++ " !"⟩] }) := by
  simp [run, hget, hui, hdefs, hadd, messageBox, to_string, addButtonDefinition]

/-- Path 5 of `run`: `commandCreated()` answers null, after the registration. -/
theorem run_of_no_event (h : Host) (context : String) (s : State) (a : AppRef) (u : UIRef)
    (cmdDefs : DefsRef) (d : DefRef) (hget : h.get = some a) (hui : h.userInterface a = some u)
    (hdefs : h.commandDefinitions u = some cmdDefs)
    (hadd : h.addButtonDefinition s.registry cmdDefs sampleButton = some d)
    (hevt : h.commandCreated d = none) :
    run h context s =
      (Outcome.nullDeref,
        { s with app := some a, ui := some u, sampleCmdDef := some d,
                 shown := s.shown ++ [⟨u, "Context: " ++ context ++ " !"⟩],
                 registry := s.registry ++ [⟨cmdDefs, sampleButton, d⟩] }) := by
  simp [run, hget, hui, hdefs, hadd, hevt, messageBox, to_string, addButtonDefinition]

/-- Path 6 of `run`: every host call answers with an object. -/
theorem run_of_all_present (h : Host) (context : String) (s : State) (a : AppRef) (u : UIRef)
    (cmdDefs : DefsRef) (d : DefRef) (e : EventRef)
    (hget : h.get = some a) (hui : h.userInterface a = some u)
    (hdefs : h.commandDefinitions u = some cmdDefs)
    (hadd : h.addButtonDefinition s.registry cmdDefs sampleButton = some d)
    (hevt : h.commandCreated d = some e) :
    run h context s =
      (Outcome.returned true,
        { app := some a, ui := some u, sampleCmdDef := some d,
          shown := s.shown ++ [⟨u, "Context: " ++ context ++ " !"⟩],
          registry := s.registry ++ [⟨cmdDefs, sampleButton, d⟩],
          subscriptions := s.subscriptions ++ [⟨e, HandlerRef._cmdCreated⟩] }) := by
  simp [run, hget, hui, hdefs, hadd, hevt, messageBox, to_string, addButtonDefinition, add]

/-- The six paths of `run` are all there is: every call ends on exactly one of them. -/
theorem run_cases (h : Host) (s : State) :
    h.get = none ∨
    (∃ a, h.get = some a ∧ h.userInterface a = none) ∨
    (∃ a u, h.get = some a ∧ h.userInterface a = some u ∧ h.commandDefinitions u = none) ∨
    (∃ a u c, h.get = some a ∧ h.userInterface a = some u ∧ h.commandDefinitions u = some c ∧
      h.addButtonDefinition s.registry c sampleButton = none) ∨
    (∃ a u c d, h.get = some a ∧ h.userInterface a = some u ∧ h.commandDefinitions u = some c ∧
      h.addButtonDefinition s.registry c sampleButton = some d ∧ h.commandCreated d = none) ∨
    (∃ a u c d e, h.get = some a ∧ h.userInterface a = some u ∧
      h.commandDefinitions u = some c ∧
      h.addButtonDefinition s.registry c sampleButton = some d ∧ h.commandCreated d = some e) := by
  cases hget : h.get with
  | none => exact Or.inl rfl
  | some a =>
    right
    cases hui : h.userInterface a with
    | none => exact Or.inl ⟨a, rfl, hui⟩
    | some u =>
      right
      cases hdefs : h.commandDefinitions u with
      | none => exact Or.inl ⟨a, u, rfl, hui, hdefs⟩
      | some c =>
        right
        cases hadd : h.addButtonDefinition s.registry c sampleButton with
        | none => exact Or.inl ⟨a, u, c, rfl, hui, hdefs, hadd⟩
        | some d =>
          right
          cases hevt : h.commandCreated d with
          | none => exact Or.inl ⟨a, u, c, d, rfl, hui, hdefs, hadd, hevt⟩
          | some e => exact Or.inr ⟨a, u, c, d, e, rfl, hui, hdefs, hadd, hevt⟩

/-- What `stop` does when the UI reference is held. -/
theorem stop_of_ui (context : String) (s : State) (u : UIRef) (hui : s.ui = some u) :
    stop context s =
      (true, { s with ui := none, shown := s.shown ++ [⟨u, "Stop C++ add-in"⟩] }) := by
  simp [stop, hui, messageBox]

/-- What `stop` does when the UI reference is null: nothing. -/
theorem stop_of_no_ui (context : String) (s : State) (hui : s.ui = none) :
    stop context s = (true, s) := by
  simp [stop, hui]

/-! ## Failure conditions of `run` -/

/-- C1: for every host and every context, `run` returns `false` when the
application singleton is unavailable, and returns `false` when the application
is available but its UI manager is unavailable. -/
theorem run_returns_false_of_unavailable (h : Host) (context : String) (s : State)
    (hfail : h.get = none ∨ ∃ a, h.get = some a ∧ h.userInterface a = none) :
    (run h context s).1 = Outcome.returned false := by
  rcases hfail with hget | ⟨a, hget, hui⟩
  · rw [run_of_no_app h context s hget]
  · rw [run_of_no_ui h context s a hget hui]

/-- Witness of C1 on a host without application and on a host without UI manager. -/
theorem run_returns_false_of_unavailable_witness :
    (noAppHost.get = none ∧ (run noAppHost "load" idle).1 = Outcome.returned false) ∧
    ((∃ a, noUIHost.get = some a ∧ noUIHost.userInterface a = none) ∧
      (run noUIHost "load" loaded).1 = Outcome.returned false) :=
  ⟨⟨rfl, run_returns_false_of_unavailable noAppHost "load" idle (Or.inl rfl)⟩,
   ⟨⟨⟨1⟩, rfl, rfl⟩,
    run_returns_false_of_unavailable noUIHost "load" loaded (Or.inr ⟨⟨1⟩, rfl, rfl⟩)⟩⟩

/-- C2, evaluated on a host whose application and UI manager are both
available and which refuses an id that is already registered: the first load
returns `true`, `stop` returns `true` and leaves the definition registered, and
the next load does not return `true`: `addButtonDefinition` answers null and
`run` applies `operator->` to it. -/
theorem run_reload_dereferences_null :
    (liveHost.get = some ⟨1⟩ ∧ liveHost.userInterface ⟨1⟩ = some ⟨2⟩) ∧
    (run liveHost "load" idle).1 = Outcome.returned true ∧
    (stop "unload" (run liveHost "load" idle).2).1 = true ∧
    (run liveHost "reload" (stop "unload" (run liveHost "load" idle).2).2).1
      = Outcome.nullDeref ∧
    (run liveHost "reload" (stop "unload" (run liveHost "load" idle).2).2).1
      ≠ Outcome.returned true := by
  refine ⟨⟨rfl, rfl⟩, ?_, ?_, ?_, ?_⟩ <;> decide

/-! ## What a successful `run` does -/

/-- C3: when `run` returns `true` it has added exactly one entry to the
registry, on the collection the UI manager answered, with id "sampleCmdID",
name "Sample", tooltip "Sample tooltip" and resource folder
"./Resources/icon32", and exactly one subscription, of `_cmdCreated` to the
command-created event of that very definition; nothing else is registered or
subscribed. -/
theorem run_true_registers_one_button (h : Host) (context : String) (s : State)
    (hrun : (run h context s).1 = Outcome.returned true) :
    ∃ a u cmdDefs d e,
      h.get = some a ∧ h.userInterface a = some u ∧ h.commandDefinitions u = some cmdDefs ∧
      h.commandCreated d = some e ∧
      (run h context s).2.registry
        = s.registry ++
            [⟨cmdDefs, ⟨"sampleCmdID", "Sample", "Sample tooltip", "./Resources/icon32"⟩, d⟩] ∧
      (run h context s).2.subscriptions
        = s.subscriptions ++ [⟨e, HandlerRef._cmdCreated⟩] := by
  rcases run_cases h s with hget | ⟨a, hget, hui⟩ | ⟨a, u, hget, hui, hdefs⟩ |
    ⟨a, u, c, hget, hui, hdefs, hadd⟩ | ⟨a, u, c, d, hget, hui, hdefs, hadd, hevt⟩ |
    ⟨a, u, c, d, e, hget, hui, hdefs, hadd, hevt⟩
  · rw [run_of_no_app h context s hget] at hrun; simp at hrun
  · rw [run_of_no_ui h context s a hget hui] at hrun; simp at hrun
  · rw [run_of_no_defs h context s a u hget hui hdefs] at hrun; simp at hrun
  · rw [run_of_no_definition h context s a u c hget hui hdefs hadd] at hrun; simp at hrun
  · rw [run_of_no_event h context s a u c d hget hui hdefs hadd hevt] at hrun; simp at hrun
  · rw [run_of_all_present h context s a u c d e hget hui hdefs hadd hevt]
    exact ⟨a, u, c, d, e, hget, hui, hdefs, hevt, rfl, rfl⟩

/-- Witness of C3: the first load on a host that answers every call. -/
theorem run_true_registers_one_button_witness :
    (run liveHost "load" idle).1 = Outcome.returned true ∧
    ∃ a u cmdDefs d e,
      liveHost.get = some a ∧ liveHost.userInterface a = some u ∧
      liveHost.commandDefinitions u = some cmdDefs ∧ liveHost.commandCreated d = some e ∧
      (run liveHost "load" idle).2.registry
        = idle.registry ++
            [⟨cmdDefs, ⟨"sampleCmdID", "Sample", "Sample tooltip", "./Resources/icon32"⟩, d⟩] ∧
      (run liveHost "load" idle).2.subscriptions
        = idle.subscriptions ++ [⟨e, HandlerRef._cmdCreated⟩] :=
  ⟨by decide, run_true_registers_one_button liveHost "load" idle (by decide)⟩

/-- C8: when `run` returns `false` no message box has been shown, no definition
registered and no handler subscribed; the state differs from the one before at
most in the held application and UI references. -/
theorem run_false_has_no_host_effect (h : Host) (context : String) (s : State)
    (hrun : (run h context s).1 = Outcome.returned false) :
    (run h context s).2.shown = s.shown ∧
    (run h context s).2.registry = s.registry ∧
    (run h context s).2.subscriptions = s.subscriptions ∧
    (run h context s).2
      = { s with app := (run h context s).2.app, ui := (run h context s).2.ui } := by
  rcases run_cases h s with hget | ⟨a, hget, hui⟩ | ⟨a, u, hget, hui, hdefs⟩ |
    ⟨a, u, c, hget, hui, hdefs, hadd⟩ | ⟨a, u, c, d, hget, hui, hdefs, hadd, hevt⟩ |
    ⟨a, u, c, d, e, hget, hui, hdefs, hadd, hevt⟩
  · rw [run_of_no_app h context s hget]; exact ⟨rfl, rfl, rfl, rfl⟩
  · rw [run_of_no_ui h context s a hget hui]; exact ⟨rfl, rfl, rfl, rfl⟩
  · rw [run_of_no_defs h context s a u hget hui hdefs] at hrun; simp at hrun
  · rw [run_of_no_definition h context s a u c hget hui hdefs hadd] at hrun; simp at hrun
  · rw [run_of_no_event h context s a u c d hget hui hdefs hadd hevt] at hrun; simp at hrun
  · rw [run_of_all_present h context s a u c d e hget hui hdefs hadd hevt] at hrun
    simp at hrun

/-- Witness of C8: a failing load on top of a state that already has effects. -/
theorem run_false_has_no_host_effect_witness :
    (run noUIHost "load" loaded).1 = Outcome.returned false ∧
    (run noUIHost "load" loaded).2.shown = loaded.shown ∧
    (run noUIHost "load" loaded).2.registry = loaded.registry ∧
    (run noUIHost "load" loaded).2.subscriptions = loaded.subscriptions ∧
    (run noUIHost "load" loaded).2
      = { loaded with app := (run noUIHost "load" loaded).2.app,
                      ui := (run noUIHost "load" loaded).2.ui } :=
  ⟨by decide, run_false_has_no_host_effect noUIHost "load" loaded (by decide)⟩

/-! ## `stop` -/

/-- C4: for every state, whether the UI reference is held or not, and every
context, `stop` returns `true`. -/
theorem stop_returns_true (context : String) (s : State) : (stop context s).1 = true := by
  cases hui : s.ui with
  | none => rw [stop_of_no_ui context s hui]
  | some u => rw [stop_of_ui context s u hui]

/-- C5: after `stop` the held UI reference is null, whether or not it was held
before the call. -/
theorem stop_releases_ui (context : String) (s : State) : (stop context s).2.ui = none := by
  cases hui : s.ui with
  | none => rw [stop_of_no_ui context s hui]; exact hui
  | some u => rw [stop_of_ui context s u hui]

/-- C6 as stated fails for `stop`: on a state whose UI reference is
not held, `stop` shows no message box at all, so it does not show exactly one
box with text "Stop C++ add-in". -/
theorem stop_without_ui_shows_no_box :
    idle.ui = none ∧ (stop "unload" idle).2.shown = idle.shown ∧
    ¬ ∃ u, (stop "unload" idle).2.shown = idle.shown ++ [⟨u, "Stop C++ add-in"⟩] := by
  refine ⟨rfl, rfl, ?_⟩
  rintro ⟨u, hu⟩
  have hlen := congrArg List.length hu
  simp [stop, idle] at hlen

/-- C6, amended: a `run` that returns `true` has shown exactly one message box,
on the UI manager it obtained, with text "Context: " then the context then
" !"; `stop` shows exactly one message box, with text "Stop C++ add-in", when
the UI reference is held, and shows none when it is not held. -/
theorem message_boxes_on_load_and_unload (h : Host) (c : String) (s : State)
    (c' : String) (s' : State) :
    ((run h c s).1 = Outcome.returned true →
      ∃ a u, h.get = some a ∧ h.userInterface a = some u ∧
        (run h c s).2.shown = s.shown ++ [⟨u, "Context: " ++ c ++ " !"⟩]) ∧
    (∀ u, s'.ui = some u → (stop c' s').2.shown = s'.shown ++ [⟨u, "Stop C++ add-in"⟩]) ∧
    (s'.ui = none → (stop c' s').2.shown = s'.shown) := by
  refine ⟨fun hrun => ?_, fun u hui => ?_, fun hui => ?_⟩
  · rcases run_cases h s with hget | ⟨a, hget, hui⟩ | ⟨a, u, hget, hui, hdefs⟩ |
      ⟨a, u, d, hget, hui, hdefs, hadd⟩ | ⟨a, u, d, b, hget, hui, hdefs, hadd, hevt⟩ |
      ⟨a, u, d, b, e, hget, hui, hdefs, hadd, hevt⟩
    · rw [run_of_no_app h c s hget] at hrun; simp at hrun
    · rw [run_of_no_ui h c s a hget hui] at hrun; simp at hrun
    · rw [run_of_no_defs h c s a u hget hui hdefs] at hrun; simp at hrun
    · rw [run_of_no_definition h c s a u d hget hui hdefs hadd] at hrun; simp at hrun
    · rw [run_of_no_event h c s a u d b hget hui hdefs hadd hevt] at hrun; simp at hrun
    · rw [run_of_all_present h c s a u d b e hget hui hdefs hadd hevt]
      exact ⟨a, u, hget, hui, rfl⟩
  · rw [stop_of_ui c' s' u hui]
  · rw [stop_of_no_ui c' s' hui]

/-- Witness of the amended C6: a successful load, an unload with the UI
reference held, and an unload without it. -/
theorem message_boxes_on_load_and_unload_witness :
    ((run liveHost "load" idle).1 = Outcome.returned true ∧
      ∃ a u, liveHost.get = some a ∧ liveHost.userInterface a = some u ∧
        (run liveHost "load" idle).2.shown
          = idle.shown ++ [⟨u, "Context: " ++ "load" ++ " !"⟩]) ∧
    (loaded.ui = some ⟨2⟩ ∧
      (stop "unload" loaded).2.shown = loaded.shown ++ [⟨⟨2⟩, "Stop C++ add-in"⟩]) ∧
    (idle.ui = none ∧ (stop "unload" idle).2.shown = idle.shown) :=
  ⟨⟨by decide,
    (message_boxes_on_load_and_unload liveHost "load" idle "unload" loaded).1 (by decide)⟩,
   ⟨rfl, (message_boxes_on_load_and_unload liveHost "load" idle "unload" loaded).2.1 ⟨2⟩ rfl⟩,
   ⟨rfl, (message_boxes_on_load_and_unload liveHost "load" idle "unload" idle).2.2 rfl⟩⟩

/-- C9: `stop` leaves the held application reference, the registry, the
subscriptions and `sampleCmdDef` as they were: the state after it differs from
the state before at most in the UI reference and the boxes shown.  So after a
`run` that returned `true`, and then `stop`, the application is still held and
the "sampleCmdID" definition and its `_cmdCreated` handler are still there. -/
theorem stop_changes_only_ui_and_boxes (context : String) (s : State) :
    ((stop context s).2.app = s.app ∧
      (stop context s).2.registry = s.registry ∧
      (stop context s).2.subscriptions = s.subscriptions ∧
      (stop context s).2
        = { s with ui := (stop context s).2.ui, shown := (stop context s).2.shown }) ∧
    (∀ (h : Host) (c0 : String) (s0 : State),
      run h c0 s0 = (Outcome.returned true, s) →
        (∃ a, h.get = some a ∧ (stop context s).2.app = some a) ∧
        ∃ cmdDefs d e, h.commandCreated d = some e ∧
          (⟨cmdDefs, sampleButton, d⟩ : Registration) ∈ (stop context s).2.registry ∧
          (⟨e, HandlerRef._cmdCreated⟩ : Subscription) ∈ (stop context s).2.subscriptions) := by
  have hframe : (stop context s).2.app = s.app ∧
      (stop context s).2.registry = s.registry ∧
      (stop context s).2.subscriptions = s.subscriptions ∧
      (stop context s).2
        = { s with ui := (stop context s).2.ui, shown := (stop context s).2.shown } := by
    cases hui : s.ui with
    | none =>
      rw [stop_of_no_ui context s hui]
      exact ⟨rfl, rfl, rfl, rfl⟩
    | some u =>
      rw [stop_of_ui context s u hui]
      exact ⟨rfl, rfl, rfl, rfl⟩
  refine ⟨hframe, fun h c0 s0 hrun => ?_⟩
  obtain ⟨happ, hreg, hsub, -⟩ := hframe
  rw [happ, hreg, hsub]
  rcases run_cases h s0 with hget | ⟨a, hget, hui⟩ | ⟨a, u, hget, hui, hdefs⟩ |
    ⟨a, u, c, hget, hui, hdefs, hadd⟩ | ⟨a, u, c, d, hget, hui, hdefs, hadd, hevt⟩ |
    ⟨a, u, c, d, e, hget, hui, hdefs, hadd, hevt⟩
  · rw [run_of_no_app h c0 s0 hget] at hrun; simp at hrun
  · rw [run_of_no_ui h c0 s0 a hget hui] at hrun; simp at hrun
  · rw [run_of_no_defs h c0 s0 a u hget hui hdefs] at hrun; simp at hrun
  · rw [run_of_no_definition h c0 s0 a u c hget hui hdefs hadd] at hrun; simp at hrun
  · rw [run_of_no_event h c0 s0 a u c d hget hui hdefs hadd hevt] at hrun; simp at hrun
  · rw [run_of_all_present h c0 s0 a u c d e hget hui hdefs hadd hevt] at hrun
    have hs : s = _ := (congrArg Prod.snd hrun).symm
    subst hs
    exact ⟨⟨a, hget, rfl⟩, c, d, e, hevt, by simp, by simp⟩

/-- Witness of C9: unload after the first load on a host that answers every call. -/
theorem stop_changes_only_ui_and_boxes_witness :
    run liveHost "load" idle = (Outcome.returned true, (run liveHost "load" idle).2) ∧
    (∃ a, liveHost.get = some a ∧
      (stop "unload" (run liveHost "load" idle).2).2.app = some a) ∧
    ∃ cmdDefs d e, liveHost.commandCreated d = some e ∧
      (⟨cmdDefs, sampleButton, d⟩ : Registration)
        ∈ (stop "unload" (run liveHost "load" idle).2).2.registry ∧
      (⟨e, HandlerRef._cmdCreated⟩ : Subscription)
        ∈ (stop "unload" (run liveHost "load" idle).2).2.subscriptions :=
  ⟨by decide,
   (stop_changes_only_ui_and_boxes "unload" (run liveHost "load" idle).2).2
     liveHost "load" idle (by decide)⟩

/-- C10: `stop` twice is `stop` once: the state after `stop(c1)` then `stop(c2)`
is the state after `stop(c1)`, the second call returns `true`, and the second
call shows no message box. -/
theorem stop_idempotent (c1 c2 : String) (s : State) :
    (stop c2 (stop c1 s).2).2 = (stop c1 s).2 ∧
    (stop c2 (stop c1 s).2).1 = true ∧
    (stop c2 (stop c1 s).2).2.shown = (stop c1 s).2.shown := by
  have hnone : (stop c1 s).2.ui = none := by
    cases hui : s.ui with
    | none => rw [stop_of_no_ui c1 s hui]; exact hui
    | some u => rw [stop_of_ui c1 s u hui]
  rw [stop_of_no_ui c2 (stop c1 s).2 hnone]
  exact ⟨rfl, rfl, rfl⟩

/-! ## `DllMain` -/

/-- C7: for every `reason` (the four `DLL_*` values and any other) and every
module handle, `DllMain` returns `TRUE` and changes neither the held
application reference nor the held UI reference; it changes nothing at all. -/
theorem DllMain_pass_through (hmodule reason reserved : Nat) (s : State) :
    (DllMain hmodule reason reserved s).1 = TRUE ∧
    (DllMain hmodule reason reserved s).2.app = s.app ∧
    (DllMain hmodule reason reserved s).2.ui = s.ui ∧
    (DllMain hmodule reason reserved s).2 = s := by
  have hall : DllMain hmodule reason reserved s = (TRUE, s) := by
    simp only [DllMain]
    split_ifs <;> rfl
  rw [hall]
  exact ⟨rfl, rfl, rfl, rfl⟩

end JacksAddinPlayground
